import Mathlib

/-!
Verification of the `one-mcp` skill scripts.

This file gives a shallow embedding of the two Python scripts
`src/backend/templates/skill/executor.py` ("Tool Invoker") and
`src/backend/templates/skill/refresh_tool_docs.py` ("Doc Refresher"),
and proves/refutes the frozen claims about them.

Modelling conventions:
* JSON values (the output of `json.loads`) are the inductive `Json`;
  objects are insertion-ordered key/value lists with unique keys, matching
  Python dicts built by `json.loads`.  JSON numbers are modelled as
  integers (every numeric literal involved in the claims is an integer).
* The network is an oracle `Server : HttpRequest → Except PostErr (Json × Headers)`:
  `_post` either returns the decoded response body plus the response
  headers, or raises (a transport failure from `urllib`, or a decode
  failure from `json.loads` on the response bytes).  The oracle receives
  the request URL, so one oracle can serve several configured servers.
* Mutable state (`self.session_id`) is passed explicitly: each client
  operation returns the new client value, and also the list of HTTP
  requests it issued (its network trace), so that "no request is sent"
  and "initialize is not re-sent" are statable.
* Python dynamic-attribute behaviour is embedded faithfully: `x.get`,
  `x[k]`, `k in x`, `set(x)`, iteration and truthiness each act on an
  arbitrary decoded JSON value and raise the same exception class the
  interpreter would (`PyErr`).
* The external renderers (`yaml.dump`, `json.dumps`) and the external
  parser (`json.loads` applied to CLI input) are parameters: they are
  library code, not code of this repository.
-/

/-- A JSON value as decoded by `json.loads`.  Numbers are modelled as
integers; objects are insertion-ordered association lists. -/
inductive Json where
| null : Json
| bool : Bool → Json
| num : Int → Json
| str : String → Json
| arr : List Json → Json
| obj : List (String × Json) → Json

mutual

/-- Structural equality on decoded JSON values (Python `==` restricted to
the JSON fragment, where it coincides with structural equality). -/
def Json.beq : Json → Json → Bool
| Json.null, Json.null => true
| Json.bool a, Json.bool b => a == b
| Json.num a, Json.num b => a == b
| Json.str a, Json.str b => a == b
| Json.arr a, Json.arr b => Json.beqArr a b
| Json.obj a, Json.obj b => Json.beqObj a b
| _, _ => false

def Json.beqArr : List Json → List Json → Bool
| [], [] => true
| a :: as, b :: bs => Json.beq a b && Json.beqArr as bs
| _, _ => false

def Json.beqObj : List (String × Json) → List (String × Json) → Bool
| [], [] => true
| (k, v) :: as, (l, w) :: bs => k == l && Json.beq v w && Json.beqObj as bs
| _, _ => false

end

instance : BEq Json := ⟨Json.beq⟩

mutual

/-- `repr` of a decoded JSON value, as Python renders it inside
containers (`str` of a dict/list). -/
def pyRepr : Json → String
| Json.null => "None"
| Json.bool true => "True"
| Json.bool false => "False"
| Json.num n => toString n
| Json.str s => "\x27" ++ s ++ "\x27"
| Json.arr xs => "[" ++ pyReprList xs ++ "]"
| Json.obj kvs => "\x7b" ++ pyReprObj kvs ++ "\x7d"

def pyReprList : List Json → String
| [] => ""
| [x] => pyRepr x
| x :: y :: xs => pyRepr x ++ ", " ++ pyReprList (y :: xs)

def pyReprObj : List (String × Json) → String
| [] => ""
| [(k, v)] => "\x27" ++ k ++ "\x27: " ++ pyRepr v
| (k, v) :: y :: xs => "\x27" ++ k ++ "\x27: " ++ pyRepr v ++ ", " ++ pyReprObj (y :: xs)

end

/-- Python `str()` of a decoded JSON value (used by f-strings). -/
def pyStr : Json → String
| Json.str s => s
| v => pyRepr v

/-- Python exception classes raised by the scripts' own dynamic code. -/
inductive PyErr where
| keyError : String → PyErr
| typeError : String → PyErr
| attributeError : String → PyErr
| jsonDecode : String → PyErr
deriving DecidableEq

/-- `str()` of the exception, as interpolated into f-strings. -/
def PyErr.message : PyErr → String
| .keyError k => "\x27" ++ k ++ "\x27"
| .typeError m => m
| .attributeError m => m
| .jsonDecode m => m

/-- First binding of a key in a JSON object (Python dicts decoded by
`json.loads` have unique keys, so first = the binding). -/
def objGet? (kvs : List (String × Json)) (k : String) : Option Json :=
  (kvs.find? (fun kv => kv.1 == k)).map (fun kv => kv.2)

/-- Python `k in d` for a dict. -/
def hasKey (kvs : List (String × Json)) (k : String) : Bool :=
  (objGet? kvs k).isSome

/-- Python `x.get(k, d)`: only dicts have `.get`; any other decoded JSON
value raises `AttributeError`. -/
def pyDictGet (j : Json) (k : String) (d : Json) : Except PyErr Json :=
  match j with
  | .obj kvs => .ok ((objGet? kvs k).getD d)
  | _ => .error (.attributeError ("no attribute get"))

/-- Python `x[k]` with a string key. -/
def pyGetItem (j : Json) (k : String) : Except PyErr Json :=
  match j with
  | .obj kvs =>
    match objGet? kvs k with
    | some v => .ok v
    | none => .error (.keyError k)
  | .arr _ => .error (.typeError ("list indices must be integers"))
  | .str _ => .error (.typeError ("string indices must be integers"))
  | _ => .error (.typeError ("object is not subscriptable"))

/-- Substring test (used by Python `k in s` on strings). -/
def strContains (hay needle : String) : Bool :=
  (List.range (hay.toList.length + 1)).any
    (fun i => ((hay.toList.drop i).take needle.toList.length) == needle.toList)

/-- Python `k in x` for a decoded JSON value: key membership on dicts,
element membership on lists, substring on strings, `TypeError` otherwise. -/
def pyContains (j : Json) (k : String) : Except PyErr Bool :=
  match j with
  | .obj kvs => .ok (hasKey kvs k)
  | .arr xs => .ok (xs.contains (Json.str k))
  | .str s => .ok (strContains s k)
  | _ => .error (.typeError ("argument is not iterable"))

/-- Python truthiness of a decoded JSON value. -/
def jsonTruthy : Json → Bool
| .null => false
| .bool b => b
| .num n => n != 0
| .str s => !(s == "")
| .arr xs => !xs.isEmpty
| .obj kvs => !kvs.isEmpty

/-- Hashability of a decoded JSON value (dicts and lists are unhashable). -/
def jsonHashable : Json → Bool
| .arr _ => false
| .obj _ => false
| _ => true

/-- Whether a decoded JSON value is a dict (the only decoded values with
a `.get` attribute). -/
def jsonIsObj : Json → Bool
| .obj _ => true
| _ => false

/-- Python `set(x)` on a decoded JSON value, kept as the element list in
iteration order (deduplication does not affect membership, which is all
the scripts use the set for). -/
def pySet (j : Json) : Except PyErr (List Json) :=
  match j with
  | .arr xs => if xs.all jsonHashable then .ok xs
               else .error (.typeError ("unhashable type"))
  | .str s => .ok (s.toList.map (fun c => Json.str (String.mk [c])))
  | .obj kvs => .ok (kvs.map (fun kv => Json.str kv.1))
  | _ => .error (.typeError ("object is not iterable"))

/-- Python `for x in j`: the sequence of iterates. -/
def pyIter (j : Json) : Except PyErr (List Json) :=
  match j with
  | .arr xs => .ok xs
  | .str s => .ok (s.toList.map (fun c => Json.str (String.mk [c])))
  | .obj kvs => .ok (kvs.map (fun kv => Json.str kv.1))
  | _ => .error (.typeError ("object is not iterable"))

/-! ## HTTP layer -/

/-- Response headers, as `dict(response.headers)`. -/
abbrev Headers := List (String × String)

/-- `dict.get` on a header dict. -/
def headerGet? (hs : Headers) (k : String) : Option String :=
  (hs.find? (fun kv => kv.1 == k)).map (fun kv => kv.2)

/-- `d[k] = v` on a string dict: replace an existing binding in place, or
append a new one (Python dict update semantics). -/
def dictSet (hs : Headers) (k v : String) : Headers :=
  if (hs.find? (fun kv => kv.1 == k)).isSome
  then hs.map (fun kv => if kv.1 == k then (k, v) else kv)
  else hs ++ [(k, v)]

/-- `base.update(extra)` on string dicts. -/
def dictUpdate (base extra : Headers) : Headers :=
  extra.foldl (fun m kv => dictSet m kv.1 kv.2) base

/-- One HTTP POST issued by `MCPClient._post`: target URL, decoded JSON
body, and the request headers. -/
structure HttpRequest where
  url : Json
  body : Json
  headers : Headers

/-- A failure of `_post`: either the transport raised (`urllib`
`URLError`/`HTTPError`), or the response bytes were not valid JSON
(`json.loads` raised). -/
inductive PostErr where
| transport : String → PostErr
| decode : String → PostErr
deriving DecidableEq

/-- The remote endpoint(s), as an oracle: what one `_post` exchange
returns for a given request.  The request carries the URL, so a single
oracle models every configured server. -/
abbrev Server := HttpRequest → Except PostErr (Json × Headers)

/-- The request `_post` builds: `Content-Type: application/json` updated
with the caller-supplied headers. -/
def mkPost (base_url : Json) (data : Json) (extra : Headers) : HttpRequest :=
  { url := base_url, body := data,
    headers := dictUpdate [(("Content-Type"), ("application/json"))] extra }

/-! ## MCP client (identical in both scripts up to `clientInfo.name` and
the RPC each script adds: `call_tool` in executor.py, `list_tools` in
refresh_tool_docs.py) -/

/-- An exception escaping an `MCPClient` method. -/
inductive MCPError where
| post : PostErr → MCPError
| noSessionId : MCPError
| mcp : Json → MCPError
| py : PyErr → MCPError

/-- `str()` of the exception, as the Doc Refresher prints it. -/
def MCPError.message : MCPError → String
| .post (.transport m) => m
| .post (.decode m) => m
| .noSessionId => "No session ID in response"
| .mcp v => "MCP error: " ++ pyStr v
| .py e => e.message

/-- The client state: `self.base_url` and `self.session_id`. -/
structure MCPClient where
  base_url : Json
  session_id : Option String

/-- Python `not self.session_id`: true for `None` and for the empty
string (falsiness). -/
def optFalsy : Option String → Bool
| none => true
| some s => s == ""

/-- The header value attached by `call_tool`/`list_tools`.  At that point
`session_id` is always a non-empty string in any run of these scripts
(it was just checked truthy, or just set by a successful initialize). -/
def sessionHeaderVal : Option String → String
| some s => s
| none => ""

/-- The JSON-RPC body of `MCPClient.initialize` (the `clientInfo.name`
differs between the two scripts, hence the parameter). -/
def initBody (clientName : String) : Json :=
  Json.obj
    [(("jsonrpc"), Json.str ("2.0")),
     (("id"), Json.num 1),
     (("method"), Json.str ("initialize")),
     (("params"), Json.obj
       [(("protocolVersion"), Json.str ("2024-11-05")),
        (("capabilities"), Json.obj []),
        (("clientInfo"), Json.obj
          [(("name"), Json.str clientName),
           (("version"), Json.str ("1.0.0"))])])]

/-- The HTTP request `initialize` posts. -/
def initRequest (base_url : Json) (clientName : String) : HttpRequest :=
  mkPost base_url (initBody clientName) []

/-- Models `MCPClient.initialize` (that identifier is a Lean keyword):
POST the handshake, set `self.session_id` to the `Mcp-Session-Id`
response header, and raise `Exception("No session ID in response")` when
that value is falsy (absent, i.e. `None`, or the empty string).
Returns the outcome together with the requests issued. -/
def MCPClient.initSession (srv : Server) (clientName : String) (c : MCPClient) :
    Except MCPError (Json × MCPClient) × List HttpRequest :=
  (match srv (initRequest c.base_url clientName) with
   | .error e => .error (.post e)
   | .ok (body, hdrs) =>
     match headerGet? hdrs ("Mcp-Session-Id") with
     | none => .error .noSessionId
     | some s =>
       if s == "" then .error .noSessionId
       else .ok (body, { c with session_id := some s }),
   [initRequest c.base_url clientName])

/-- The shared two-line prelude of `call_tool`/`list_tools`:
`if not self.session_id: self.initialize()`. -/
def MCPClient.ensureInit (srv : Server) (clientName : String) (c : MCPClient) :
    Except MCPError MCPClient × List HttpRequest :=
  if optFalsy c.session_id then
    match MCPClient.initSession srv clientName c with
    | (.ok (_, c2), tr) => (.ok c2, tr)
    | (.error e, tr) => (.error e, tr)
  else (.ok c, [])

/-- The JSON-RPC body of `tools/call` (executor.py). -/
def callToolBody (tool_name : String) (params : Json) : Json :=
  Json.obj
    [(("jsonrpc"), Json.str ("2.0")),
     (("id"), Json.num 2),
     (("method"), Json.str ("tools/call")),
     (("params"), Json.obj
       [(("name"), Json.str tool_name),
        (("arguments"), params)])]

/-- The JSON-RPC body of `tools/list` (refresh_tool_docs.py). -/
def listToolsBody : Json :=
  Json.obj
    [(("jsonrpc"), Json.str ("2.0")),
     (("id"), Json.num 2),
     (("method"), Json.str ("tools/list")),
     (("params"), Json.obj [])]

/-- `MCPClient.call_tool` from executor.py: lazily initialize, POST
`tools/call` with the session header attached, and return the decoded
body unchanged (no inspection of an `error` field). -/
def MCPClient.call_tool (srv : Server) (c : MCPClient) (tool_name : String)
    (params : Json) : Except MCPError (Json × MCPClient) × List HttpRequest :=
  match MCPClient.ensureInit srv ("mcp-executor") c with
  | (.error e, tr) => (.error e, tr)
  | (.ok c2, tr) =>
    let req := mkPost c2.base_url (callToolBody tool_name params)
      [(("Mcp-Session-Id"), sessionHeaderVal c2.session_id)]
    match srv req with
    | .error e => (.error (.post e), tr ++ [req])
    | .ok (body, _) => (.ok (body, c2), tr ++ [req])

/-- `MCPClient.list_tools` from refresh_tool_docs.py: lazily initialize,
POST `tools/list` with the session header, raise on an `error` field in
the body, then return `body.get("result", {}).get("tools", [])`. -/
def MCPClient.list_tools (srv : Server) (c : MCPClient) :
    Except MCPError (Json × MCPClient) × List HttpRequest :=
  match MCPClient.ensureInit srv ("refresh-tool-docs") c with
  | (.error e, tr) => (.error e, tr)
  | (.ok c2, tr) =>
    let req := mkPost c2.base_url listToolsBody
      [(("Mcp-Session-Id"), sessionHeaderVal c2.session_id)]
    match srv req with
    | .error e => (.error (.post e), tr ++ [req])
    | .ok (body, _) =>
      match pyContains body ("error") with
      | .error pe => (.error (.py pe), tr ++ [req])
      | .ok true =>
        match pyGetItem body ("error") with
        | .ok v => (.error (.mcp v), tr ++ [req])
        | .error pe => (.error (.py pe), tr ++ [req])
      | .ok false =>
        match pyDictGet body ("result") (Json.obj []) with
        | .error pe => (.error (.py pe), tr ++ [req])
        | .ok r =>
          match pyDictGet r ("tools") (Json.arr []) with
          | .error pe => (.error (.py pe), tr ++ [req])
          | .ok tools => (.ok (tools, c2), tr ++ [req])

/-- `fetch_tools` from refresh_tool_docs.py: a fresh client per server. -/
def fetch_tools (srv : Server) (mcp_url : Json) :
    Except MCPError (Json × MCPClient) × List HttpRequest :=
  MCPClient.list_tools srv { base_url := mcp_url, session_id := none }

/-! ## Schema-to-parameter conversion (refresh_tool_docs.py) -/

/-- The loop body of `convert_schema_to_yaml_params`: build one parameter
record (a Python dict, modelled as an insertion-ordered list) for one
property.  `prop.get` raises `AttributeError` when the property value is
not a dict; after that every access is on a dict and cannot raise. -/
def convertParam (required : List Json) (name : String) (prop : Json) :
    Except PyErr (List (String × Json)) :=
  match prop with
  | .obj kvs =>
    let p0 : List (String × Json) :=
      [(("type"), (objGet? kvs ("type")).getD (Json.str ("string")))]
    let p1 := match objGet? kvs ("description") with
      | some d => p0 ++ [(("desc"), d)]
      | none => p0
    let p2 := match objGet? kvs ("enum") with
      | some e => p1 ++ [(("enum"), e)]
      | none => p1
    let p3 := match objGet? kvs ("default") with
      | some d => p2 ++ [(("default"), d)]
      | none => p2
    .ok (if required.contains (Json.str name)
         then p3 ++ [(("required"), Json.bool true)] else p3)
  | _ => .error (.attributeError ("no attribute get"))

/-- `for name, prop in props.items(): ... params[name] = param`. -/
def convertLoop (required : List Json) :
    List (String × Json) → Except PyErr (List (String × List (String × Json)))
| [] => .ok []
| (name, prop) :: rest =>
  match convertParam required name prop with
  | .error e => .error e
  | .ok p =>
    match convertLoop required rest with
    | .error e => .error e
    | .ok ps => .ok ((name, p) :: ps)

/-- `convert_schema_to_yaml_params` from refresh_tool_docs.py. -/
def convert_schema_to_yaml_params (input_schema : Json) :
    Except PyErr (List (String × List (String × Json))) :=
  match pyDictGet input_schema ("properties") (Json.obj []) with
  | .error e => .error e
  | .ok props =>
    match pyDictGet input_schema ("required") (Json.arr []) with
    | .error e => .error e
    | .ok reqd =>
      match pySet reqd with
      | .error e => .error e
      | .ok required =>
        match props with
        | .obj kvs => convertLoop required kvs
        | _ => .error (.attributeError ("no attribute items"))

/-! ## Markdown rendering (refresh_tool_docs.py `write_tools_md`) -/

/-- Python `s.rstrip()`. -/
def rstrip (s : String) : String :=
  String.mk (((s.toList.reverse).dropWhile Char.isWhitespace).reverse)

/-- The `**Params:**` block appended for one tool, or `[]` when the
schema has no truthy `properties`.  `yamlDump` stands for the external
`yaml.dump(..., allow_unicode=True, default_flow_style=False)` and
`jsonDumps` for the external `json.dumps(..., indent=2)`. -/
def paramsBlock (hasYaml : Bool)
    (yamlDump : List (String × List (String × Json)) → String)
    (jsonDumps : Json → String) (input_schema : Json) :
    Except PyErr (List Json) :=
  match pyDictGet input_schema ("properties") Json.null with
  | .error e => .error e
  | .ok props =>
    if jsonTruthy props then
      if hasYaml then
        match convert_schema_to_yaml_params input_schema with
        | .error e => .error e
        | .ok params =>
          .ok [Json.str ("**Params:**"), Json.str ("```yaml"),
               Json.str (rstrip (yamlDump params)), Json.str ("```"),
               Json.str ("")]
      else
        .ok [Json.str ("**Params:**"), Json.str ("```json"),
             Json.str (jsonDumps input_schema), Json.str ("```"),
             Json.str ("")]
    else .ok []

/-- The lines one tool contributes: heading, blank, possibly the raw
description value (Python appends `tool["description"]` itself, not its
`str()`), then the params block. -/
def toolLines (hasYaml : Bool)
    (yamlDump : List (String × List (String × Json)) → String)
    (jsonDumps : Json → String) (tool : Json) : Except PyErr (List Json) :=
  match pyGetItem tool ("name") with
  | .error e => .error e
  | .ok nm =>
    match pyDictGet tool ("description") Json.null with
    | .error e => .error e
    | .ok desc =>
      match pyDictGet tool ("inputSchema") (Json.obj []) with
      | .error e => .error e
      | .ok ischema =>
        match paramsBlock hasYaml yamlDump jsonDumps ischema with
        | .error e => .error e
        | .ok pblock =>
          .ok ([Json.str ("## " ++ pyStr nm), Json.str ("")]
               ++ (if jsonTruthy desc then [desc, Json.str ("")] else [])
               ++ pblock)

/-- `for tool in tools:` accumulating the lines list. -/
def toolsLines (hasYaml : Bool)
    (yamlDump : List (String × List (String × Json)) → String)
    (jsonDumps : Json → String) : List Json → Except PyErr (List Json)
| [] => .ok []
| t :: ts =>
  match toolLines hasYaml yamlDump jsonDumps t with
  | .error e => .error e
  | .ok ls =>
    match toolsLines hasYaml yamlDump jsonDumps ts with
    | .error e => .error e
    | .ok rest => .ok (ls ++ rest)

/-- Python `"\n".join(lines)`: every element must be a `str`. -/
def pyStrJoin (sep : String) (xs : List Json) : Except PyErr String :=
  if xs.all (fun j => match j with | Json.str _ => true | _ => false)
  then .ok (String.intercalate sep
         (xs.map (fun j => match j with | Json.str s => s | _ => "")))
  else .error (.typeError ("sequence item: expected str instance"))

/-- `write_tools_md` from refresh_tool_docs.py, up to the filesystem
effect: on success it yields the output path, the file content, and the
`Updated:` line it prints. -/
def write_tools_md (hasYaml : Bool)
    (yamlDump : List (String × List (String × Json)) → String)
    (jsonDumps : Json → String) (mcp_name : String) (tools : Json)
    (output_dir : String) : Except PyErr (String × String × String) :=
  match pyIter tools with
  | .error e => .error e
  | .ok ts =>
    match toolsLines hasYaml yamlDump jsonDumps ts with
    | .error e => .error e
    | .ok body =>
      match pyStrJoin ("\n")
          ([Json.str ("# " ++ mcp_name ++ " Tools"), Json.str ("")] ++ body) with
      | .error e => .error e
      | .ok content =>
        .ok (output_dir ++ "/" ++ mcp_name ++ ".md", content,
             "Updated: " ++ output_dir ++ "/" ++ mcp_name ++ ".md")

/-! ## Filesystem model -/

/-- The output directory as a path → content map (latest write first). -/
abbrev FS := List (String × String)

def FS.read (fs : FS) (p : String) : Option String :=
  (fs.find? (fun kv => kv.1 == p)).map (fun kv => kv.2)

/-- `Path.write_text`: replaces whatever was at the path.  The newest
binding is prepended and `FS.read` returns the newest binding, so the
previous content at the path becomes unobservable (overwrite). -/
def FS.write (fs : FS) (p c : String) : FS :=
  (p, c) :: fs

/-! ## Doc Refresher entry point (refresh_tool_docs.py `__main__`) -/

/-- The body of one loop iteration, up to the `except` clause: resolve
`server["url"]`, fetch the tools, render the file. -/
def refreshStep (srv : Server) (hasYaml : Bool)
    (yamlDump : List (String × List (String × Json)) → String)
    (jsonDumps : Json → String) (tools_dir : String)
    (mcp_name : String) (server : Json) :
    Except MCPError (String × String × String) :=
  match pyGetItem server ("url") with
  | .error e => .error (.py e)
  | .ok url =>
    match (fetch_tools srv url).1 with
    | .error e => .error e
    | .ok (tools, _) =>
      match write_tools_md hasYaml yamlDump jsonDumps mcp_name tools tools_dir with
      | .error e => .error (.py e)
      | .ok r => .ok r

/-- The `for mcp_name, server in config["mcpServers"].items():` loop with
its per-server `try/except`: a failing server contributes an error line
and leaves the filesystem alone; a succeeding one writes its file and
prints the `Updated:` line. -/
def refreshLoop (srv : Server) (hasYaml : Bool)
    (yamlDump : List (String × List (String × Json)) → String)
    (jsonDumps : Json → String) (tools_dir : String) :
    List (String × Json) → FS → FS × List String
| [], fs => (fs, [])
| (mcp_name, server) :: rest, fs =>
  match refreshStep srv hasYaml yamlDump jsonDumps tools_dir mcp_name server with
  | .ok (path, content, line) =>
    let r := refreshLoop srv hasYaml yamlDump jsonDumps tools_dir rest
      (FS.write fs path content)
    (r.1, line :: r.2)
  | .error e =>
    let r := refreshLoop srv hasYaml yamlDump jsonDumps tools_dir rest fs
    (r.1, ("Error fetching tools for " ++ mcp_name ++ ": " ++ e.message) :: r.2)

/-- `__main__` of refresh_tool_docs.py, given the already-decoded config
file.  An exception outside the per-server `try` (a config without the
`mcpServers` key, or whose value has no `.items()`) aborts the process. -/
def refreshMain (srv : Server) (hasYaml : Bool)
    (yamlDump : List (String × List (String × Json)) → String)
    (jsonDumps : Json → String) (config : Json) (script_dir : String)
    (fs : FS) : Except PyErr (FS × List String) :=
  match pyGetItem config ("mcpServers") with
  | .error e => .error e
  | .ok servers =>
    match servers with
    | .obj kvs =>
      let r := refreshLoop srv hasYaml yamlDump jsonDumps
        (script_dir ++ "/tools") kvs fs
      .ok (r.1, r.2 ++ ["Tool docs refreshed"])
    | _ => .error (.attributeError ("no attribute items"))

/-! ## Tool Invoker entry point (executor.py `__main__`) -/

/-- The module docstring printed on wrong argument count. -/
def executorDoc : String :=
  "\nMCP Tool Executor - Zero-token execution script\n\nUsage:\n    python executor.py <mcp_name> <tool_name> <json_params>\n\nExample:\n    python executor.py github-mcp create_issue \x27\x7b\"repo\": \"owner/repo\", \"title\": \"Test\"\x7d\x27\n"

/-- The observable outcome of one executor.py process run. -/
structure ProcResult where
  exitCode : Nat
  output : List String
  requests : List HttpRequest
  uncaught : Option MCPError

/-- Process death from an uncaught exception: exit code 1, nothing
printed to stdout, no requests beyond those already recorded. -/
def crashResult (e : MCPError) : ProcResult :=
  { exitCode := 1, output := [], requests := [], uncaught := some e }

/-- `__main__` of executor.py.  `jsonLoads` is the external
`json.loads` applied to the third CLI argument; `config` is the outcome
of `load_config()` (reading and decoding `mcp-config.json`); `argv` is
`sys.argv` including the program name.  Order is exactly the source's:
argument-count check, JSON parse of the params, config load, config
subscripts, then the client call. -/
def executorMain (jsonLoads : String → Except PyErr Json)
    (jsonDumps : Json → String) (config : Except PyErr Json) (srv : Server)
    (argv : List String) : ProcResult :=
  if argv.length != 4 then
    { exitCode := 1, output := [executorDoc], requests := [], uncaught := none }
  else
    match jsonLoads (argv.getD 3 "") with
    | .error e => crashResult (.py e)
    | .ok params =>
      match config with
      | .error e => crashResult (.py e)
      | .ok cfg =>
        match pyGetItem cfg ("mcpServers") with
        | .error e => crashResult (.py e)
        | .ok servers =>
          match pyGetItem servers (argv.getD 1 "") with
          | .error e => crashResult (.py e)
          | .ok entry =>
            match pyGetItem entry ("url") with
            | .error e => crashResult (.py e)
            | .ok url =>
              match MCPClient.call_tool srv
                  { base_url := url, session_id := none }
                  (argv.getD 2 "") params with
              | (.error e, tr) =>
                { exitCode := 1, output := [], requests := tr,
                  uncaught := some e }
              | (.ok (result, _), tr) =>
                { exitCode := 0, output := [jsonDumps result], requests := tr,
                  uncaught := none }

/-! ## Generic facts about the embedded client -/

/-- The `method` field of a request body, used to recognise which RPC a
trace element is. -/
def bodyMethod (r : HttpRequest) : Option Json :=
  match r.body with
  | Json.obj kvs => objGet? kvs ("method")
  | _ => none

theorem ensureInit_some (srv : Server) (nm : String) (url : Json) (s : String)
    (hs : s ≠ "") :
    MCPClient.ensureInit srv nm { base_url := url, session_id := some s }
      = (.ok { base_url := url, session_id := some s }, []) := by
  have h2 : (s == "") = false := by simp [hs]
  simp [MCPClient.ensureInit, optFalsy, h2]

theorem call_tool_inited (srv : Server) (url : Json) (s : String) (hs : s ≠ "")
    (tool_name : String) (params : Json) :
    MCPClient.call_tool srv { base_url := url, session_id := some s } tool_name params
      = (match srv (mkPost url (callToolBody tool_name params)
            [(("Mcp-Session-Id"), s)]) with
         | .error e => .error (.post e)
         | .ok (body, _) => .ok (body, { base_url := url, session_id := some s }),
         [mkPost url (callToolBody tool_name params) [(("Mcp-Session-Id"), s)]]) := by
  unfold MCPClient.call_tool
  rw [ensureInit_some srv ("mcp-executor") url s hs]
  cases h : srv (mkPost url (callToolBody tool_name params)
      [(("Mcp-Session-Id"), s)]) with
  | error e => simp [sessionHeaderVal, h]
  | ok r => obtain ⟨body, hdrs⟩ := r; simp [sessionHeaderVal, h]

theorem list_tools_inited_trace (srv : Server) (url : Json) (s : String)
    (hs : s ≠ "") :
    (MCPClient.list_tools srv { base_url := url, session_id := some s }).2
      = [mkPost url listToolsBody [(("Mcp-Session-Id"), s)]] := by
  unfold MCPClient.list_tools
  rw [ensureInit_some srv ("refresh-tool-docs") url s hs]
  cases h : srv (mkPost url listToolsBody [(("Mcp-Session-Id"), s)]) with
  | error e => simp [sessionHeaderVal, h]
  | ok r =>
    obtain ⟨body, hdrs⟩ := r
    cases h2 : pyContains body ("error") with
    | error pe => simp [sessionHeaderVal, h, h2]
    | ok b =>
      cases b with
      | true =>
        cases h3 : pyGetItem body ("error") with
        | ok v => simp [sessionHeaderVal, h, h2, h3]
        | error pe => simp [sessionHeaderVal, h, h2, h3]
      | false =>
        cases h4 : pyDictGet body ("result") (Json.obj []) with
        | error pe => simp [sessionHeaderVal, h, h2, h4]
        | ok rres =>
          cases h5 : pyDictGet rres ("tools") (Json.arr []) with
          | error pe => simp [sessionHeaderVal, h, h2, h4, h5]
          | ok tools => simp [sessionHeaderVal, h, h2, h4, h5]

theorem call_tool_fresh_trace (srv : Server) (url : Json) (tool_name : String)
    (params : Json) :
    (MCPClient.call_tool srv { base_url := url, session_id := none } tool_name params).2
      = [initRequest url ("mcp-executor")]
    ∨ ∃ c2 : MCPClient,
        (MCPClient.call_tool srv { base_url := url, session_id := none } tool_name params).2
          = [initRequest url ("mcp-executor"),
             mkPost c2.base_url (callToolBody tool_name params)
               [(("Mcp-Session-Id"), sessionHeaderVal c2.session_id)]] := by
  unfold MCPClient.call_tool MCPClient.ensureInit MCPClient.initSession
  cases h : srv (initRequest url ("mcp-executor")) with
  | error e => left; simp [optFalsy, h]
  | ok r =>
    obtain ⟨body, hdrs⟩ := r
    cases hh : headerGet? hdrs ("Mcp-Session-Id") with
    | none => left; simp [optFalsy, h, hh]
    | some s =>
      by_cases he : s = ""
      · left; subst he; simp [optFalsy, h, hh]
      · have h2 : (s == "") = false := by simp [he]
        right
        refine ⟨{ base_url := url, session_id := some s }, ?_⟩
        cases h3 : srv (mkPost url (callToolBody tool_name params)
            [(("Mcp-Session-Id"), sessionHeaderVal (some s))]) with
        | error e => simp [optFalsy, h, hh, h2, h3]
        | ok r2 => obtain ⟨b2, hd2⟩ := r2; simp [optFalsy, h, hh, h2, h3]

theorem list_tools_fresh_trace (srv : Server) (url : Json) :
    (MCPClient.list_tools srv { base_url := url, session_id := none }).2
      = [initRequest url ("refresh-tool-docs")]
    ∨ ∃ c2 : MCPClient,
        (MCPClient.list_tools srv { base_url := url, session_id := none }).2
          = [initRequest url ("refresh-tool-docs"),
             mkPost c2.base_url listToolsBody
               [(("Mcp-Session-Id"), sessionHeaderVal c2.session_id)]] := by
  unfold MCPClient.list_tools MCPClient.ensureInit MCPClient.initSession
  cases h : srv (initRequest url ("refresh-tool-docs")) with
  | error e => left; simp [optFalsy, h]
  | ok r =>
    obtain ⟨body, hdrs⟩ := r
    cases hh : headerGet? hdrs ("Mcp-Session-Id") with
    | none => left; simp [optFalsy, h, hh]
    | some s =>
      by_cases he : s = ""
      · left; subst he; simp [optFalsy, h, hh]
      · have h2 : (s == "") = false := by simp [he]
        right
        refine ⟨{ base_url := url, session_id := some s }, ?_⟩
        cases h3 : srv (mkPost url listToolsBody
            [(("Mcp-Session-Id"), sessionHeaderVal (some s))]) with
        | error e => simp [optFalsy, h, hh, h2, h3]
        | ok r2 =>
          obtain ⟨b2, hd2⟩ := r2
          cases h4 : pyContains b2 ("error") with
          | error pe => simp [optFalsy, h, hh, h2, h3, h4]
          | ok b =>
            cases b with
            | true =>
              cases h5 : pyGetItem b2 ("error") with
              | ok v => simp [optFalsy, h, hh, h2, h3, h4, h5]
              | error pe => simp [optFalsy, h, hh, h2, h3, h4, h5]
            | false =>
              cases h6 : pyDictGet b2 ("result") (Json.obj []) with
              | error pe => simp [optFalsy, h, hh, h2, h3, h4, h6]
              | ok rres =>
                cases h7 : pyDictGet rres ("tools") (Json.arr []) with
                | error pe => simp [optFalsy, h, hh, h2, h3, h4, h6, h7]
                | ok tools => simp [optFalsy, h, hh, h2, h3, h4, h6, h7]

/-! ## C1 -/

/-- C1: For every client instance, no RPC other than initialize is sent
while the session id is unset: on a fresh client both `call_tool`
(executor) and `list_tools` (doc refresher) send the initialize
handshake as their first request and any non-initialize request comes
strictly after it; on an already-initialized client the trace is exactly
the one RPC request — no initialize is re-sent — and the stored session
id is attached verbatim as the `Mcp-Session-Id` header. -/
theorem c1_session_initialization_discipline
    (srv : Server) (url : Json) (tool_name : String) (params : Json)
    (s : String) (hs : s ≠ "") :
    ((MCPClient.call_tool srv { base_url := url, session_id := none } tool_name params).2.head?
       = some (initRequest url ("mcp-executor")))
    ∧ ((MCPClient.list_tools srv { base_url := url, session_id := none }).2.head?
       = some (initRequest url ("refresh-tool-docs")))
    ∧ (∀ i r, (MCPClient.call_tool srv { base_url := url, session_id := none } tool_name params).2[i]? = some r
         → bodyMethod r ≠ some (Json.str ("initialize")) → 0 < i)
    ∧ (∀ i r, (MCPClient.list_tools srv { base_url := url, session_id := none }).2[i]? = some r
         → bodyMethod r ≠ some (Json.str ("initialize")) → 0 < i)
    ∧ ((MCPClient.call_tool srv { base_url := url, session_id := some s } tool_name params).2
       = [mkPost url (callToolBody tool_name params) [(("Mcp-Session-Id"), s)]])
    ∧ ((MCPClient.list_tools srv { base_url := url, session_id := some s }).2
       = [mkPost url listToolsBody [(("Mcp-Session-Id"), s)]])
    ∧ (∀ r ∈ (MCPClient.call_tool srv { base_url := url, session_id := some s } tool_name params).2,
         bodyMethod r ≠ some (Json.str ("initialize"))
         ∧ headerGet? r.headers ("Mcp-Session-Id") = some s)
    ∧ (∀ r ∈ (MCPClient.list_tools srv { base_url := url, session_id := some s }).2,
         bodyMethod r ≠ some (Json.str ("initialize"))
         ∧ headerGet? r.headers ("Mcp-Session-Id") = some s) := by
  have hct : (MCPClient.call_tool srv { base_url := url, session_id := some s } tool_name params).2
      = [mkPost url (callToolBody tool_name params) [(("Mcp-Session-Id"), s)]] := by
    rw [call_tool_inited srv url s hs tool_name params]
  have hlt := list_tools_inited_trace srv url s hs
  refine ⟨?_, ?_, ?_, ?_, hct, hlt, ?_, ?_⟩
  · rcases call_tool_fresh_trace srv url tool_name params with htr | ⟨c2, htr⟩ <;>
      rw [htr] <;> rfl
  · rcases list_tools_fresh_trace srv url with htr | ⟨c2, htr⟩ <;> rw [htr] <;> rfl
  · intro i r hget hm
    cases i with
    | zero =>
      exfalso
      apply hm
      rcases call_tool_fresh_trace srv url tool_name params with htr | ⟨c2, htr⟩ <;>
        · rw [htr] at hget
          simp at hget
          rw [← hget]
          rfl
    | succ n => exact Nat.succ_pos n
  · intro i r hget hm
    cases i with
    | zero =>
      exfalso
      apply hm
      rcases list_tools_fresh_trace srv url with htr | ⟨c2, htr⟩ <;>
        · rw [htr] at hget
          simp at hget
          rw [← hget]
          rfl
    | succ n => exact Nat.succ_pos n
  · intro r hr
    rw [hct] at hr
    simp at hr
    subst hr
    constructor
    · intro hcon
      have : Json.str ("tools/call") = Json.str ("initialize") := by
        have h1 : bodyMethod (mkPost url (callToolBody tool_name params)
            [(("Mcp-Session-Id"), s)]) = some (Json.str ("tools/call")) := rfl
        rw [h1] at hcon
        exact Option.some.inj hcon
      simp at this
    · rfl
  · intro r hr
    rw [hlt] at hr
    simp at hr
    subst hr
    constructor
    · intro hcon
      have : Json.str ("tools/list") = Json.str ("initialize") := by
        have h1 : bodyMethod (mkPost url listToolsBody
            [(("Mcp-Session-Id"), s)]) = some (Json.str ("tools/list")) := rfl
        rw [h1] at hcon
        exact Option.some.inj hcon
      simp at this
    · rfl

/-- A stub endpoint that always answers with an empty body and a session
header. -/
def okServer : Server := fun _ =>
  .ok (Json.obj [], [(("Mcp-Session-Id"), ("sess-1"))])

theorem c1_session_initialization_discipline_witness :
    (("sess-9") ≠ "")
    ∧ (((MCPClient.call_tool okServer { base_url := Json.str ("http://a"), session_id := none } ("echo") (Json.obj [])).2.head?
         = some (initRequest (Json.str ("http://a")) ("mcp-executor")))
       ∧ ((MCPClient.list_tools okServer { base_url := Json.str ("http://a"), session_id := none }).2.head?
         = some (initRequest (Json.str ("http://a")) ("refresh-tool-docs")))
       ∧ (∀ i r, (MCPClient.call_tool okServer { base_url := Json.str ("http://a"), session_id := none } ("echo") (Json.obj [])).2[i]? = some r
           → bodyMethod r ≠ some (Json.str ("initialize")) → 0 < i)
       ∧ (∀ i r, (MCPClient.list_tools okServer { base_url := Json.str ("http://a"), session_id := none }).2[i]? = some r
           → bodyMethod r ≠ some (Json.str ("initialize")) → 0 < i)
       ∧ ((MCPClient.call_tool okServer { base_url := Json.str ("http://a"), session_id := some ("sess-9") } ("echo") (Json.obj [])).2
         = [mkPost (Json.str ("http://a")) (callToolBody ("echo") (Json.obj [])) [(("Mcp-Session-Id"), ("sess-9"))]])
       ∧ ((MCPClient.list_tools okServer { base_url := Json.str ("http://a"), session_id := some ("sess-9") }).2
         = [mkPost (Json.str ("http://a")) listToolsBody [(("Mcp-Session-Id"), ("sess-9"))]])
       ∧ (∀ r ∈ (MCPClient.call_tool okServer { base_url := Json.str ("http://a"), session_id := some ("sess-9") } ("echo") (Json.obj [])).2,
           bodyMethod r ≠ some (Json.str ("initialize"))
           ∧ headerGet? r.headers ("Mcp-Session-Id") = some ("sess-9"))
       ∧ (∀ r ∈ (MCPClient.list_tools okServer { base_url := Json.str ("http://a"), session_id := some ("sess-9") }).2,
           bodyMethod r ≠ some (Json.str ("initialize"))
           ∧ headerGet? r.headers ("Mcp-Session-Id") = some ("sess-9"))) :=
  ⟨by decide,
   c1_session_initialization_discipline okServer (Json.str ("http://a")) ("echo")
     (Json.obj []) ("sess-9") (by decide)⟩

/-! ## C2 -/

/-- A stub endpoint whose initialize response carries the session header
with an empty value. -/
def emptySidServer : Server := fun _ =>
  .ok (Json.obj [], [(("Mcp-Session-Id"), (""))])

/-- C2 counterexample: the claim says initialize fails if and only if
the `Mcp-Session-Id` response header is absent.  Here the header is
present (with the empty-string value), yet `initialize` still raises
`Exception("No session ID in response")`, because the source checks
`if not self.session_id` — Python falsiness, not key absence. -/
theorem c2_counterexample_empty_header :
    headerGet? [(("Mcp-Session-Id"), (""))] ("Mcp-Session-Id") = some ""
    ∧ (MCPClient.initSession emptySidServer ("mcp-executor")
        { base_url := Json.str ("http://a"), session_id := none }).1
      = .error .noSessionId :=
  ⟨rfl, rfl⟩

/-- C2 (amended): given that the initialize POST itself succeeds,
`initialize` fails with the protocol-class "No session ID in response"
exception iff the `Mcp-Session-Id` response header is absent **or its
value is the empty string**; otherwise it stores the header value
exactly as returned in `session_id`. -/
theorem c2_session_header_capture (srv : Server) (clientName : String)
    (c : MCPClient) (body : Json) (hdrs : Headers)
    (h : srv (initRequest c.base_url clientName) = .ok (body, hdrs)) :
    ((MCPClient.initSession srv clientName c).1 = .error .noSessionId
      ↔ (headerGet? hdrs ("Mcp-Session-Id") = none
         ∨ headerGet? hdrs ("Mcp-Session-Id") = some ""))
    ∧ (∀ s, headerGet? hdrs ("Mcp-Session-Id") = some s → s ≠ "" →
        (MCPClient.initSession srv clientName c).1
          = .ok (body, { c with session_id := some s })) := by
  unfold MCPClient.initSession
  rw [h]
  cases hh : headerGet? hdrs ("Mcp-Session-Id") with
  | none => simp [hh]
  | some s =>
    by_cases he : s = ""
    · subst he; simp [hh]
    · simp [hh, he]

theorem c2_session_header_capture_witness :
    (okServer (initRequest (Json.str ("http://a")) ("mcp-executor"))
       = .ok (Json.obj [], [(("Mcp-Session-Id"), ("sess-1"))]))
    ∧ (((MCPClient.initSession okServer ("mcp-executor")
          { base_url := Json.str ("http://a"), session_id := none }).1
            = .error .noSessionId
        ↔ (headerGet? [(("Mcp-Session-Id"), ("sess-1"))] ("Mcp-Session-Id") = none
           ∨ headerGet? [(("Mcp-Session-Id"), ("sess-1"))] ("Mcp-Session-Id") = some ""))
       ∧ (∀ s, headerGet? [(("Mcp-Session-Id"), ("sess-1"))] ("Mcp-Session-Id") = some s
           → s ≠ "" →
           (MCPClient.initSession okServer ("mcp-executor")
             { base_url := Json.str ("http://a"), session_id := none }).1
             = .ok (Json.obj [],
                 { base_url := Json.str ("http://a"), session_id := some s }))) :=
  ⟨rfl, c2_session_header_capture okServer ("mcp-executor")
     { base_url := Json.str ("http://a"), session_id := none } (Json.obj [])
     [(("Mcp-Session-Id"), ("sess-1"))] rfl⟩

/-! ## C3 -/

/-- C3: when the RPC response body is an object with an `error` field,
`list_tools` raises (`Exception("MCP error: …")`) whereas `call_tool`
returns the decoded body unchanged, embedded error included — the
asymmetry in the source. -/
theorem c3_error_field_asymmetry (srv : Server) (url : Json) (s : String)
    (hs : s ≠ "") (tool_name : String) (params : Json)
    (kvs : List (String × Json)) (v : Json) (hL hC : Headers)
    (hv : objGet? kvs ("error") = some v)
    (hlist : srv (mkPost url listToolsBody [(("Mcp-Session-Id"), s)])
      = .ok (Json.obj kvs, hL))
    (hcall : srv (mkPost url (callToolBody tool_name params) [(("Mcp-Session-Id"), s)])
      = .ok (Json.obj kvs, hC)) :
    (MCPClient.list_tools srv { base_url := url, session_id := some s }).1
      = .error (.mcp v)
    ∧ (MCPClient.call_tool srv { base_url := url, session_id := some s } tool_name params).1
      = .ok (Json.obj kvs, { base_url := url, session_id := some s }) := by
  constructor
  · unfold MCPClient.list_tools
    rw [ensureInit_some srv ("refresh-tool-docs") url s hs]
    simp [sessionHeaderVal, hlist, pyContains, hasKey, hv, pyGetItem]
  · rw [call_tool_inited srv url s hs tool_name params]
    simp [hcall]

/-- A stub endpoint answering every request with a body that carries an
`error` field. -/
def errBodyServer : Server := fun _ =>
  .ok (Json.obj [(("error"), Json.str ("boom"))], [])

theorem c3_error_field_asymmetry_witness :
    (("sess-3") ≠ "")
    ∧ objGet? [(("error"), Json.str ("boom"))] ("error") = some (Json.str ("boom"))
    ∧ ((MCPClient.list_tools errBodyServer
          { base_url := Json.str ("http://a"), session_id := some ("sess-3") }).1
        = .error (.mcp (Json.str ("boom")))
       ∧ (MCPClient.call_tool errBodyServer
          { base_url := Json.str ("http://a"), session_id := some ("sess-3") }
          ("echo") (Json.obj [])).1
        = .ok (Json.obj [(("error"), Json.str ("boom"))],
            { base_url := Json.str ("http://a"), session_id := some ("sess-3") })) :=
  ⟨by decide, rfl,
   c3_error_field_asymmetry errBodyServer (Json.str ("http://a")) ("sess-3")
     (by decide) ("echo") (Json.obj []) [(("error"), Json.str ("boom"))]
     (Json.str ("boom")) [] [] rfl rfl rfl⟩

/-! ## C4 -/

/-- A stub endpoint whose listing response is valid JSON but has no
`result` key at all. -/
def noResultServer : Server := fun r =>
  match bodyMethod r with
  | some (Json.str m) =>
    if m == "initialize"
    then .ok (Json.obj [], [(("Mcp-Session-Id"), ("sess-1"))])
    else .ok (Json.obj [(("jsonrpc"), Json.str ("2.0"))], [])
  | _ => .error (.transport ("no route"))

/-- C4 counterexample: the claim says a listing response that is valid
JSON but lacks the expected result structure makes the operation fail.
Against a server whose `tools/list` response is `{"jsonrpc": "2.0"}`
(no `result`, no `error`), `fetch_tools` does **not** fail: it returns
the empty tool list, because the source reads
`body.get("result", {}).get("tools", [])` with defaults. -/
theorem c4_counterexample_missing_result :
    hasKey [(("jsonrpc"), Json.str ("2.0"))] ("result") = false
    ∧ hasKey [(("jsonrpc"), Json.str ("2.0"))] ("error") = false
    ∧ (fetch_tools noResultServer (Json.str ("http://a"))).1
      = .ok (Json.arr [],
          { base_url := Json.str ("http://a"), session_id := some ("sess-1") }) :=
  ⟨rfl, rfl, rfl⟩

/-- C4 (amended): every call fails when the response body cannot be
parsed as JSON (the `json.loads`/transport exception from `_post`
propagates out of `initialize`, `call_tool` and `list_tools` alike), and
a listing whose `result` field is present but not an object fails with
the `AttributeError`; but a listing response that is a valid JSON object
with no `error` field and no `result` key — or whose `result` object has
no `tools` key — does not fail: it returns the empty tool list via the
`.get` defaults. -/
theorem c4_parse_failure_and_defaults (srv : Server) (url : Json) (s : String)
    (hs : s ≠ "") (tool_name : String) (params : Json) :
    (∀ e, srv (mkPost url listToolsBody [(("Mcp-Session-Id"), s)]) = .error e →
        (MCPClient.list_tools srv { base_url := url, session_id := some s }).1
          = .error (.post e))
    ∧ (∀ e, srv (mkPost url (callToolBody tool_name params)
          [(("Mcp-Session-Id"), s)]) = .error e →
        (MCPClient.call_tool srv { base_url := url, session_id := some s } tool_name params).1
          = .error (.post e))
    ∧ (∀ clientName e, srv (initRequest url clientName) = .error e →
        (MCPClient.initSession srv clientName
          { base_url := url, session_id := none }).1 = .error (.post e))
    ∧ (∀ kvs hdrs, srv (mkPost url listToolsBody [(("Mcp-Session-Id"), s)])
          = .ok (Json.obj kvs, hdrs) →
        objGet? kvs ("error") = none → objGet? kvs ("result") = none →
        (MCPClient.list_tools srv { base_url := url, session_id := some s }).1
          = .ok (Json.arr [], { base_url := url, session_id := some s }))
    ∧ (∀ kvs hdrs rkvs, srv (mkPost url listToolsBody [(("Mcp-Session-Id"), s)])
          = .ok (Json.obj kvs, hdrs) →
        objGet? kvs ("error") = none → objGet? kvs ("result") = some (Json.obj rkvs) →
        objGet? rkvs ("tools") = none →
        (MCPClient.list_tools srv { base_url := url, session_id := some s }).1
          = .ok (Json.arr [], { base_url := url, session_id := some s }))
    ∧ (∀ kvs hdrs v, srv (mkPost url listToolsBody [(("Mcp-Session-Id"), s)])
          = .ok (Json.obj kvs, hdrs) →
        objGet? kvs ("error") = none → objGet? kvs ("result") = some v →
        jsonIsObj v = false →
        (MCPClient.list_tools srv { base_url := url, session_id := some s }).1
          = .error (.py (.attributeError ("no attribute get")))) := by
  refine ⟨?_, ?_, ?_, ?_, ?_, ?_⟩
  · intro e hsrv
    unfold MCPClient.list_tools
    rw [ensureInit_some srv ("refresh-tool-docs") url s hs]
    simp [sessionHeaderVal, hsrv]
  · intro e hsrv
    rw [call_tool_inited srv url s hs tool_name params]
    simp [hsrv]
  · intro clientName e hsrv
    unfold MCPClient.initSession
    rw [hsrv]
  · intro kvs hdrs hsrv hkerr hkres
    unfold MCPClient.list_tools
    rw [ensureInit_some srv ("refresh-tool-docs") url s hs]
    simp [sessionHeaderVal, hsrv, pyContains, hasKey, hkerr, pyDictGet, hkres]
    rfl
  · intro kvs hdrs rkvs hsrv hkerr hkres hktools
    unfold MCPClient.list_tools
    rw [ensureInit_some srv ("refresh-tool-docs") url s hs]
    simp [sessionHeaderVal, hsrv, pyContains, hasKey, hkerr, pyDictGet, hkres, hktools]
  · intro kvs hdrs v hsrv hkerr hkres hobj
    unfold MCPClient.list_tools
    rw [ensureInit_some srv ("refresh-tool-docs") url s hs]
    cases v with
    | obj rkvs => simp [jsonIsObj] at hobj
    | null => simp [sessionHeaderVal, hsrv, pyContains, hasKey, hkerr, pyDictGet, hkres]
    | bool b => simp [sessionHeaderVal, hsrv, pyContains, hasKey, hkerr, pyDictGet, hkres]
    | num n => simp [sessionHeaderVal, hsrv, pyContains, hasKey, hkerr, pyDictGet, hkres]
    | str t => simp [sessionHeaderVal, hsrv, pyContains, hasKey, hkerr, pyDictGet, hkres]
    | arr xs => simp [sessionHeaderVal, hsrv, pyContains, hasKey, hkerr, pyDictGet, hkres]

/-- A stub endpoint whose responses are never valid JSON. -/
def badJsonServer : Server := fun _ => .error (.decode ("Expecting value"))

theorem c4_parse_failure_and_defaults_witness :
    (("sess-4") ≠ "")
    ∧ ((∀ e, badJsonServer (mkPost (Json.str ("http://a")) listToolsBody
            [(("Mcp-Session-Id"), ("sess-4"))]) = .error e →
          (MCPClient.list_tools badJsonServer
            { base_url := Json.str ("http://a"), session_id := some ("sess-4") }).1
            = .error (.post e))
       ∧ (∀ e, badJsonServer (mkPost (Json.str ("http://a"))
             (callToolBody ("echo") (Json.obj []))
             [(("Mcp-Session-Id"), ("sess-4"))]) = .error e →
           (MCPClient.call_tool badJsonServer
             { base_url := Json.str ("http://a"), session_id := some ("sess-4") }
             ("echo") (Json.obj [])).1 = .error (.post e))
       ∧ (∀ clientName e, badJsonServer (initRequest (Json.str ("http://a")) clientName)
             = .error e →
           (MCPClient.initSession badJsonServer clientName
             { base_url := Json.str ("http://a"), session_id := none }).1
             = .error (.post e))
       ∧ (∀ kvs hdrs, badJsonServer (mkPost (Json.str ("http://a")) listToolsBody
             [(("Mcp-Session-Id"), ("sess-4"))]) = .ok (Json.obj kvs, hdrs) →
           objGet? kvs ("error") = none → objGet? kvs ("result") = none →
           (MCPClient.list_tools badJsonServer
             { base_url := Json.str ("http://a"), session_id := some ("sess-4") }).1
             = .ok (Json.arr [],
                 { base_url := Json.str ("http://a"), session_id := some ("sess-4") }))
       ∧ (∀ kvs hdrs rkvs, badJsonServer (mkPost (Json.str ("http://a")) listToolsBody
             [(("Mcp-Session-Id"), ("sess-4"))]) = .ok (Json.obj kvs, hdrs) →
           objGet? kvs ("error") = none → objGet? kvs ("result") = some (Json.obj rkvs) →
           objGet? rkvs ("tools") = none →
           (MCPClient.list_tools badJsonServer
             { base_url := Json.str ("http://a"), session_id := some ("sess-4") }).1
             = .ok (Json.arr [],
                 { base_url := Json.str ("http://a"), session_id := some ("sess-4") }))
       ∧ (∀ kvs hdrs v, badJsonServer (mkPost (Json.str ("http://a")) listToolsBody
             [(("Mcp-Session-Id"), ("sess-4"))]) = .ok (Json.obj kvs, hdrs) →
           objGet? kvs ("error") = none → objGet? kvs ("result") = some v →
           jsonIsObj v = false →
           (MCPClient.list_tools badJsonServer
             { base_url := Json.str ("http://a"), session_id := some ("sess-4") }).1
             = .error (.py (.attributeError ("no attribute get"))))) :=
  ⟨by decide,
   c4_parse_failure_and_defaults badJsonServer (Json.str ("http://a")) ("sess-4")
     (by decide) ("echo") (Json.obj [])⟩

/-! ## C7 -/

/-- The input schema named by C7. -/
def c7Schema : Json :=
  Json.obj
    [(("properties"), Json.obj
       [(("a"), Json.obj [(("type"), Json.str ("string"))]),
        (("b"), Json.obj [(("type"), Json.str ("integer")),
                          (("default"), Json.num 5)])]),
     (("required"), Json.arr [Json.str ("a")])]

/-- C7: converting the schema with properties `a : string`,
`b : integer (default 5)` and `required = ["a"]` yields a record that
marks `a` required (and only `a`) and records `b`'s default as `5`. -/
theorem c7_schema_conversion_example :
    convert_schema_to_yaml_params c7Schema
      = .ok [(("a"), [(("type"), Json.str ("string")),
                      (("required"), Json.bool true)]),
             (("b"), [(("type"), Json.str ("integer")),
                      (("default"), Json.num 5)])]
    ∧ objGet? [(("type"), Json.str ("string")), (("required"), Json.bool true)]
        ("required") = some (Json.bool true)
    ∧ objGet? [(("type"), Json.str ("integer")), (("default"), Json.num 5)]
        ("required") = none
    ∧ objGet? [(("type"), Json.str ("integer")), (("default"), Json.num 5)]
        ("default") = some (Json.num 5) :=
  ⟨rfl, rfl, rfl, rfl⟩

/-! ## C8 -/

/-- C8: invoking executor.py with a server name absent from the config's
`mcpServers` mapping dies with the `KeyError` for that name (the
spec's `ConfigError` class) — exit code 1, nothing on stdout, and not a
single network request. -/
theorem c8_unknown_server_no_network (jsonLoads : String → Except PyErr Json)
    (jsonDumps : Json → String) (srv : Server)
    (prog mcp_name tool_name arg : String) (params : Json)
    (serverskvs : List (String × Json))
    (hparse : jsonLoads arg = .ok params)
    (habsent : objGet? serverskvs mcp_name = none) :
    executorMain jsonLoads jsonDumps
        (.ok (Json.obj [(("mcpServers"), Json.obj serverskvs)])) srv
        [prog, mcp_name, tool_name, arg]
      = { exitCode := 1, output := [], requests := [],
          uncaught := some (.py (.keyError mcp_name)) } := by
  unfold executorMain
  have habsent2 : List.find? (fun kv => kv.1 == mcp_name) serverskvs = none := by
    have h := habsent
    unfold objGet? at h
    cases hf : List.find? (fun kv => kv.1 == mcp_name) serverskvs with
    | none => rfl
    | some kv => rw [hf] at h; simp at h
  simp [hparse, pyGetItem, objGet?, habsent2, crashResult, List.getD]

/-- A `json.loads` oracle that accepts everything (C8 witness). -/
def acceptAllLoads : String → Except PyErr Json := fun _ => .ok (Json.obj [])

theorem c8_unknown_server_no_network_witness :
    acceptAllLoads ("\x7b\x7d") = .ok (Json.obj [])
    ∧ objGet? [(("github-mcp"), Json.obj [(("url"), Json.str ("http://g"))])]
        ("nope") = none
    ∧ executorMain acceptAllLoads pyRepr
        (.ok (Json.obj [(("mcpServers"),
           Json.obj [(("github-mcp"), Json.obj [(("url"), Json.str ("http://g"))])])]))
        okServer [("executor.py"), ("nope"), ("echo"), ("\x7b\x7d")]
      = { exitCode := 1, output := [], requests := [],
          uncaught := some (.py (.keyError ("nope"))) } :=
  ⟨rfl, rfl,
   c8_unknown_server_no_network acceptAllLoads pyRepr okServer ("executor.py")
     ("nope") ("echo") ("\x7b\x7d") (Json.obj [])
     [(("github-mcp"), Json.obj [(("url"), Json.str ("http://g"))])] rfl rfl⟩

/-! ## C9 -/

/-- C9: invoking executor.py with three arguments whose third is not
valid JSON dies on the `json.loads` exception before the config is even
read — exit code 1 and no network request, whatever the config and
whatever the network would answer. -/
theorem c9_malformed_json_no_network (jsonLoads : String → Except PyErr Json)
    (jsonDumps : Json → String) (config : Except PyErr Json) (srv : Server)
    (prog mcp_name tool_name arg : String) (e : PyErr)
    (hbad : jsonLoads arg = .error e) :
    executorMain jsonLoads jsonDumps config srv [prog, mcp_name, tool_name, arg]
      = { exitCode := 1, output := [], requests := [],
          uncaught := some (.py e) } := by
  unfold executorMain
  simp [hbad, crashResult, List.getD]

/-- A `json.loads` oracle that rejects everything (C9 witness). -/
def rejectAllLoads : String → Except PyErr Json :=
  fun _ => .error (.jsonDecode ("Expecting value: line 1 column 1"))

theorem c9_malformed_json_no_network_witness :
    rejectAllLoads ("not json") = .error (.jsonDecode ("Expecting value: line 1 column 1"))
    ∧ executorMain rejectAllLoads pyRepr (.error (.jsonDecode ("unused"))) okServer
        [("executor.py"), ("github-mcp"), ("echo"), ("not json")]
      = { exitCode := 1, output := [], requests := [],
          uncaught := some (.py (.jsonDecode ("Expecting value: line 1 column 1"))) } :=
  ⟨rfl,
   c9_malformed_json_no_network rejectAllLoads pyRepr (.error (.jsonDecode ("unused")))
     okServer ("executor.py") ("github-mcp") ("echo") ("not json")
     (.jsonDecode ("Expecting value: line 1 column 1")) rfl⟩

/-! ## C10 -/

theorem convertLoop_keys (required : List Json) (l : List (String × Json))
    (ps : List (String × List (String × Json)))
    (h : convertLoop required l = .ok ps) :
    ps.map Prod.fst = l.map Prod.fst := by
  induction l generalizing ps with
  | nil =>
    unfold convertLoop at h
    simp at h
    simp [← h]
  | cons hd rest ih =>
    obtain ⟨name, prop⟩ := hd
    unfold convertLoop at h
    cases h1 : convertParam required name prop with
    | error e => rw [h1] at h; simp at h
    | ok p =>
      rw [h1] at h
      cases h2 : convertLoop required rest with
      | error e => rw [h2] at h; simp at h
      | ok ps2 =>
        rw [h2] at h
        simp at h
        rw [← h]
        simp [ih ps2 h2]

/-- C10: the parameter names produced by `convert_schema_to_yaml_params`
are exactly the keys of the schema's `properties` object, in order; a
name listed under `required` but absent from `properties` produces no
entry, and every produced entry's name (in particular every one carrying
the required flag) comes from `properties`. -/
theorem c10_param_names_match_properties (input_schema : Json)
    (props : List (String × Json))
    (params : List (String × List (String × Json)))
    (hprops : pyDictGet input_schema ("properties") (Json.obj []) = .ok (Json.obj props))
    (hok : convert_schema_to_yaml_params input_schema = .ok params) :
    params.map Prod.fst = props.map Prod.fst
    ∧ (∀ r : String, r ∉ props.map Prod.fst → r ∉ params.map Prod.fst)
    ∧ (∀ nm pr, (nm, pr) ∈ params → nm ∈ props.map Prod.fst) := by
  unfold convert_schema_to_yaml_params at hok
  rw [hprops] at hok
  simp only [] at hok
  cases h2 : pyDictGet input_schema ("required") (Json.arr []) with
  | error e => rw [h2] at hok; simp at hok
  | ok reqd =>
    rw [h2] at hok
    simp only [] at hok
    cases h3 : pySet reqd with
    | error e => rw [h3] at hok; simp at hok
    | ok required =>
      rw [h3] at hok
      simp only [] at hok
      have hkeys := convertLoop_keys required props params hok
      refine ⟨hkeys, ?_, ?_⟩
      · intro r hnotin
        rw [hkeys]
        exact hnotin
      · intro nm pr hmem
        rw [← hkeys]
        exact List.mem_map_of_mem Prod.fst hmem

/-! ## Filesystem facts -/

theorem FS.read_write_self (fs : FS) (p c : String) :
    FS.read (FS.write fs p c) p = some c := by
  simp [FS.read, FS.write, List.find?_cons]

theorem FS.read_write_ne (fs : FS) (p c q : String) (h : q ≠ p) :
    FS.read (FS.write fs p c) q = FS.read fs q := by
  have hpq : (p == q) = false := by
    simp
    exact fun hc => h hc.symm
  simp [FS.read, FS.write, List.find?_cons, hpq]

/-- Injectivity of the per-server output path. -/
theorem mdPath_inj (dir a b : String)
    (h : dir ++ "/" ++ a ++ ".md" = dir ++ "/" ++ b ++ ".md") : a = b := by
  have hd : ((dir ++ "/").data ++ a.data) ++ (".md").data
      = ((dir ++ "/").data ++ b.data) ++ (".md").data := by
    have h2 := congrArg String.data h
    rw [String.data_append, String.data_append, String.data_append,
        String.data_append] at h2
    exact h2
  exact String.ext (List.append_cancel_left (List.append_cancel_right hd))

/-! ## Heading facts for write_tools_md -/

/-- The `name` of each returned tool, when every tool has one. -/
def toolNames : List Json → Option (List Json)
| [] => some []
| t :: ts =>
  match pyGetItem t ("name") with
  | .ok v => (toolNames ts).map (fun ns => v :: ns)
  | .error _ => none

theorem toolLines_heading (hasYaml : Bool)
    (yamlDump : List (String × List (String × Json)) → String)
    (jsonDumps : Json → String) (tool : Json) (v : Json) (ls : List Json)
    (hv : pyGetItem tool ("name") = .ok v)
    (h : toolLines hasYaml yamlDump jsonDumps tool = .ok ls) :
    ∃ rest, ls = Json.str ("## " ++ pyStr v) :: rest := by
  unfold toolLines at h
  rw [hv] at h
  simp only [] at h
  cases h2 : pyDictGet tool ("description") Json.null with
  | error e => rw [h2] at h; simp at h
  | ok desc =>
    rw [h2] at h
    simp only [] at h
    cases h3 : pyDictGet tool ("inputSchema") (Json.obj []) with
    | error e => rw [h3] at h; simp at h
    | ok ischema =>
      rw [h3] at h
      simp only [] at h
      cases h4 : paramsBlock hasYaml yamlDump jsonDumps ischema with
      | error e => rw [h4] at h; simp at h
      | ok pblock =>
        rw [h4] at h
        simp at h
        exact ⟨_, by rw [← h]⟩

theorem toolsLines_headings (hasYaml : Bool)
    (yamlDump : List (String × List (String × Json)) → String)
    (jsonDumps : Json → String) (ts : List Json) (names : List Json)
    (ls : List Json)
    (hn : toolNames ts = some names)
    (h : toolsLines hasYaml yamlDump jsonDumps ts = .ok ls) :
    List.Sublist (names.map (fun n => Json.str ("## " ++ pyStr n))) ls := by
  induction ts generalizing names ls with
  | nil =>
    unfold toolNames at hn
    unfold toolsLines at h
    simp at hn h
    rw [hn, h]
    exact List.nil_sublist []
  | cons t rest ih =>
    unfold toolNames at hn
    cases hv : pyGetItem t ("name") with
    | error e => rw [hv] at hn; simp at hn
    | ok v =>
      rw [hv] at hn
      simp only [] at hn
      cases htn : toolNames rest with
      | none => rw [htn] at hn; simp at hn
      | some ns =>
        rw [htn] at hn
        simp at hn
        unfold toolsLines at h
        cases hl : toolLines hasYaml yamlDump jsonDumps t with
        | error e => rw [hl] at h; simp at h
        | ok lt =>
          rw [hl] at h
          simp only [] at h
          cases hr : toolsLines hasYaml yamlDump jsonDumps rest with
          | error e => rw [hr] at h; simp at h
          | ok lr =>
            rw [hr] at h
            simp at h
            obtain ⟨tail, hlt⟩ := toolLines_heading hasYaml yamlDump jsonDumps t v lt hv hl
            rw [← hn, ← h, hlt]
            simp only [List.map_cons, List.cons_append]
            exact List.Sublist.cons₂ _
              ((ih ns lr htn hr).trans (List.sublist_append_right tail lr))

theorem write_tools_md_ok_path (hasYaml : Bool)
    (yamlDump : List (String × List (String × Json)) → String)
    (jsonDumps : Json → String) (mcp_name : String) (tools : Json)
    (output_dir : String) (path content line : String)
    (h : write_tools_md hasYaml yamlDump jsonDumps mcp_name tools output_dir
      = .ok (path, content, line)) :
    path = output_dir ++ "/" ++ mcp_name ++ ".md" := by
  unfold write_tools_md at h
  cases h0 : pyIter tools with
  | error e => rw [h0] at h; simp at h
  | ok ts =>
    rw [h0] at h
    simp only [] at h
    cases h1 : toolsLines hasYaml yamlDump jsonDumps ts with
    | error e => rw [h1] at h; simp at h
    | ok body =>
      rw [h1] at h
      simp only [] at h
      cases h2 : pyStrJoin ("\n")
          ([Json.str ("# " ++ mcp_name ++ " Tools"), Json.str ("")] ++ body) with
      | error e => rw [h2] at h; simp at h
      | ok content2 =>
        rw [h2] at h
        simp at h
        exact h.1.symm

theorem write_tools_md_inv (hasYaml : Bool)
    (yamlDump : List (String × List (String × Json)) → String)
    (jsonDumps : Json → String) (mcp_name : String) (ts : List Json)
    (output_dir : String) (path content line : String)
    (h : write_tools_md hasYaml yamlDump jsonDumps mcp_name (Json.arr ts) output_dir
      = .ok (path, content, line)) :
    path = output_dir ++ "/" ++ mcp_name ++ ".md"
    ∧ ∃ body, toolsLines hasYaml yamlDump jsonDumps ts = .ok body
        ∧ pyStrJoin ("\n")
            ([Json.str ("# " ++ mcp_name ++ " Tools"), Json.str ("")] ++ body)
          = .ok content := by
  unfold write_tools_md at h
  simp only [pyIter] at h
  cases h1 : toolsLines hasYaml yamlDump jsonDumps ts with
  | error e => rw [h1] at h; simp at h
  | ok body =>
    rw [h1] at h
    simp only [] at h
    cases h2 : pyStrJoin ("\n")
        ([Json.str ("# " ++ mcp_name ++ " Tools"), Json.str ("")] ++ body) with
    | error e => rw [h2] at h; simp at h
    | ok content2 =>
      rw [h2] at h
      simp at h
      exact ⟨h.1.symm, body, rfl, by rw [← h.2.1]; exact h2⟩

/-! ## C6 -/

/-- C6: when `write_tools_md` succeeds on a returned tool list, it
produces exactly the one file `<server-name>.md` under the tools
directory — writing it replaces any prior content at that path and
touches no other path — and the content contains every returned tool's
name as a `## ` section heading, in exactly the order returned (the
headings form a sublist of the rendered lines). -/
theorem c6_write_tools_md_output (hasYaml : Bool)
    (yamlDump : List (String × List (String × Json)) → String)
    (jsonDumps : Json → String) (mcp_name : String) (ts : List Json)
    (names : List Json) (output_dir : String) (path content line : String)
    (fs : FS)
    (hnames : toolNames ts = some names)
    (hok : write_tools_md hasYaml yamlDump jsonDumps mcp_name (Json.arr ts) output_dir
      = .ok (path, content, line)) :
    path = output_dir ++ "/" ++ mcp_name ++ ".md"
    ∧ FS.read (FS.write fs path content) path = some content
    ∧ (∀ q, q ≠ path → FS.read (FS.write fs path content) q = FS.read fs q)
    ∧ (∃ body, toolsLines hasYaml yamlDump jsonDumps ts = .ok body
        ∧ List.Sublist (names.map (fun n => Json.str ("## " ++ pyStr n))) body
        ∧ pyStrJoin ("\n")
            ([Json.str ("# " ++ mcp_name ++ " Tools"), Json.str ("")] ++ body)
          = .ok content) := by
  obtain ⟨hpath, body, hbody, hjoin⟩ :=
    write_tools_md_inv hasYaml yamlDump jsonDumps mcp_name ts output_dir
      path content line hok
  refine ⟨hpath, FS.read_write_self fs path content,
    fun q hq => FS.read_write_ne fs path content q hq,
    body, hbody,
    toolsLines_headings hasYaml yamlDump jsonDumps ts names body hnames hbody,
    hjoin⟩

/-- A stand-in for the external `yaml.dump` renderer in witnesses. -/
def demoYamlDump : List (String × List (String × Json)) → String :=
  fun _ => "params: demo"

/-- The tool list returned by the stub server in the C6 witness. -/
def c6Tools : List Json :=
  [Json.obj [(("name"), Json.str ("alpha"))],
   Json.obj [(("name"), Json.str ("beta")), (("description"), Json.str ("Beta tool"))]]

/-- The rendered file content for `c6Tools`. -/
def c6Content : String :=
  "# demo Tools\n\n## alpha\n\n## beta\n\nBeta tool\n"

theorem c6_write_tools_md_output_witness :
    toolNames c6Tools = some [Json.str ("alpha"), Json.str ("beta")]
    ∧ write_tools_md false demoYamlDump pyRepr ("demo") (Json.arr c6Tools) ("tools")
      = .ok (("tools/demo.md"), c6Content, ("Updated: tools/demo.md"))
    ∧ (("tools/demo.md") = "tools" ++ "/" ++ "demo" ++ ".md"
       ∧ FS.read (FS.write [] ("tools/demo.md") c6Content) ("tools/demo.md")
         = some c6Content
       ∧ (∀ q, q ≠ ("tools/demo.md") →
           FS.read (FS.write [] ("tools/demo.md") c6Content) q = FS.read [] q)
       ∧ (∃ body, toolsLines false demoYamlDump pyRepr c6Tools = .ok body
           ∧ List.Sublist ([Json.str ("alpha"), Json.str ("beta")].map
               (fun n => Json.str ("## " ++ pyStr n))) body
           ∧ pyStrJoin ("\n")
               ([Json.str ("# " ++ "demo" ++ " Tools"), Json.str ("")] ++ body)
             = .ok c6Content)) :=
  ⟨rfl, rfl,
   c6_write_tools_md_output false demoYamlDump pyRepr ("demo") c6Tools
     [Json.str ("alpha"), Json.str ("beta")] ("tools") ("tools/demo.md") c6Content
     ("Updated: tools/demo.md") [] rfl rfl⟩

/-! ## C5 -/

theorem refreshStep_ok_path (srv : Server) (hasYaml : Bool)
    (yamlDump : List (String × List (String × Json)) → String)
    (jsonDumps : Json → String) (tools_dir mcp_name : String) (server : Json)
    (path content line : String)
    (h : refreshStep srv hasYaml yamlDump jsonDumps tools_dir mcp_name server
      = .ok (path, content, line)) :
    path = tools_dir ++ "/" ++ mcp_name ++ ".md" := by
  unfold refreshStep at h
  cases h1 : pyGetItem server ("url") with
  | error e => rw [h1] at h; simp at h
  | ok url =>
    rw [h1] at h
    simp only [] at h
    cases h2 : (fetch_tools srv url).1 with
    | error e => rw [h2] at h; simp at h
    | ok tc =>
      obtain ⟨tools, c2⟩ := tc
      rw [h2] at h
      simp only [] at h
      cases h3 : write_tools_md hasYaml yamlDump jsonDumps mcp_name tools tools_dir with
      | error e => rw [h3] at h; simp at h
      | ok r =>
        rw [h3] at h
        simp at h
        rw [h] at h3
        exact write_tools_md_ok_path hasYaml yamlDump jsonDumps mcp_name tools
          tools_dir path content line h3

theorem refreshLoop_read_preserve (srv : Server) (hasYaml : Bool)
    (yamlDump : List (String × List (String × Json)) → String)
    (jsonDumps : Json → String) (tools_dir : String)
    (servers : List (String × Json)) (fs : FS) (p : String)
    (hne : ∀ mcp_name server, (mcp_name, server) ∈ servers →
      tools_dir ++ "/" ++ mcp_name ++ ".md" ≠ p) :
    FS.read (refreshLoop srv hasYaml yamlDump jsonDumps tools_dir servers fs).1 p
      = FS.read fs p := by
  induction servers generalizing fs with
  | nil => rfl
  | cons hd rest ih =>
    obtain ⟨nm0, sv0⟩ := hd
    unfold refreshLoop
    cases hs0 : refreshStep srv hasYaml yamlDump jsonDumps tools_dir nm0 sv0 with
    | ok r =>
      obtain ⟨p0, c0, l0⟩ := r
      have hp0 : p0 = tools_dir ++ "/" ++ nm0 ++ ".md" :=
        refreshStep_ok_path srv hasYaml yamlDump jsonDumps tools_dir nm0 sv0
          p0 c0 l0 hs0
      have hne0 : p ≠ p0 := by
        rw [hp0]
        exact fun hc => (hne nm0 sv0 (List.mem_cons_self _ _)) hc.symm
      simp only []
      rw [ih (FS.write fs p0 c0)
        (fun nm sv hm => hne nm sv (List.mem_cons_of_mem _ hm))]
      exact FS.read_write_ne fs p0 c0 p hne0
    | error e =>
      simp only []
      exact ih fs (fun nm sv hm => hne nm sv (List.mem_cons_of_mem _ hm))

theorem refreshLoop_error_line (srv : Server) (hasYaml : Bool)
    (yamlDump : List (String × List (String × Json)) → String)
    (jsonDumps : Json → String) (tools_dir : String)
    (servers : List (String × Json)) (fs : FS)
    (mcp_name : String) (server : Json) (e : MCPError)
    (hmem : (mcp_name, server) ∈ servers)
    (hstep : refreshStep srv hasYaml yamlDump jsonDumps tools_dir mcp_name server
      = .error e) :
    ("Error fetching tools for " ++ mcp_name ++ ": " ++ e.message)
      ∈ (refreshLoop srv hasYaml yamlDump jsonDumps tools_dir servers fs).2 := by
  induction servers generalizing fs with
  | nil => simp at hmem
  | cons hd rest ih =>
    obtain ⟨nm0, sv0⟩ := hd
    rcases List.mem_cons.mp hmem with heq | htail
    · injection heq with ha hb
      subst ha
      subst hb
      unfold refreshLoop
      rw [hstep]
      exact List.mem_cons_self _ _
    · unfold refreshLoop
      cases hs0 : refreshStep srv hasYaml yamlDump jsonDumps tools_dir nm0 sv0 with
      | ok r =>
        obtain ⟨p0, c0, l0⟩ := r
        exact List.mem_cons_of_mem _ (ih (FS.write fs p0 c0) htail)
      | error e0 =>
        exact List.mem_cons_of_mem _ (ih fs htail)

theorem refreshLoop_ok_file (srv : Server) (hasYaml : Bool)
    (yamlDump : List (String × List (String × Json)) → String)
    (jsonDumps : Json → String) (tools_dir : String)
    (servers : List (String × Json)) (fs : FS)
    (mcp_name : String) (server : Json) (path content line : String)
    (hnodup : (servers.map Prod.fst).Nodup)
    (hmem : (mcp_name, server) ∈ servers)
    (hstep : refreshStep srv hasYaml yamlDump jsonDumps tools_dir mcp_name server
      = .ok (path, content, line)) :
    FS.read (refreshLoop srv hasYaml yamlDump jsonDumps tools_dir servers fs).1 path
      = some content
    ∧ line ∈ (refreshLoop srv hasYaml yamlDump jsonDumps tools_dir servers fs).2 := by
  induction servers generalizing fs with
  | nil => simp at hmem
  | cons hd rest ih =>
    obtain ⟨nm0, sv0⟩ := hd
    have hnodup2 := (List.nodup_cons.mp hnodup).2
    have hnotin := (List.nodup_cons.mp hnodup).1
    rcases List.mem_cons.mp hmem with heq | htail
    · injection heq with ha hb
      subst ha
      subst hb
      unfold refreshLoop
      rw [hstep]
      constructor
      · have hpath := refreshStep_ok_path srv hasYaml yamlDump jsonDumps tools_dir
          mcp_name server path content line hstep
        have hne : ∀ nm sv, (nm, sv) ∈ rest →
            tools_dir ++ "/" ++ nm ++ ".md" ≠ path := by
          intro nm sv hm heq2
          have hx : nm ∈ rest.map Prod.fst := List.mem_map_of_mem Prod.fst hm
          have hnmeq : nm = mcp_name := by
            apply mdPath_inj tools_dir nm mcp_name
            rw [heq2, hpath]
          rw [hnmeq] at hx
          exact hnotin hx
        rw [refreshLoop_read_preserve srv hasYaml yamlDump jsonDumps tools_dir rest
          (FS.write fs path content) path hne]
        exact FS.read_write_self fs path content
      · exact List.mem_cons_self _ _
    · unfold refreshLoop
      cases hs0 : refreshStep srv hasYaml yamlDump jsonDumps tools_dir nm0 sv0 with
      | ok r =>
        obtain ⟨p0, c0, l0⟩ := r
        obtain ⟨hr, hl⟩ := ih (FS.write fs p0 c0) hnodup2 htail
        exact ⟨hr, List.mem_cons_of_mem _ hl⟩
      | error e0 =>
        obtain ⟨hr, hl⟩ := ih fs hnodup2 htail
        exact ⟨hr, List.mem_cons_of_mem _ hl⟩

/-- C5: per-server failure isolation in the Doc Refresher main loop — a
server whose listing step raises contributes exactly the
`Error fetching tools for <name>: …` line to standard output, and every
server whose step succeeds still gets its file written (readable with
the rendered content) and its `Updated:` line printed, regardless of the
other servers' failures. -/
theorem c5_per_server_failure_isolation (srv : Server) (hasYaml : Bool)
    (yamlDump : List (String × List (String × Json)) → String)
    (jsonDumps : Json → String) (tools_dir : String)
    (servers : List (String × Json)) (fs : FS)
    (hnodup : (servers.map Prod.fst).Nodup) :
    (∀ mcp_name server e, (mcp_name, server) ∈ servers →
        refreshStep srv hasYaml yamlDump jsonDumps tools_dir mcp_name server
          = .error e →
        ("Error fetching tools for " ++ mcp_name ++ ": " ++ e.message)
          ∈ (refreshLoop srv hasYaml yamlDump jsonDumps tools_dir servers fs).2)
    ∧ (∀ mcp_name server path content line, (mcp_name, server) ∈ servers →
        refreshStep srv hasYaml yamlDump jsonDumps tools_dir mcp_name server
          = .ok (path, content, line) →
        FS.read (refreshLoop srv hasYaml yamlDump jsonDumps tools_dir servers fs).1 path
          = some content
        ∧ line ∈ (refreshLoop srv hasYaml yamlDump jsonDumps tools_dir servers fs).2) :=
  ⟨fun nm sv e hm hstep =>
     refreshLoop_error_line srv hasYaml yamlDump jsonDumps tools_dir servers fs
       nm sv e hm hstep,
   fun nm sv path content line hm hstep =>
     refreshLoop_ok_file srv hasYaml yamlDump jsonDumps tools_dir servers fs
       nm sv path content line hnodup hm hstep⟩

/-- A two-server setup: `bad` is unreachable, `good` lists one tool. -/
def c5Oracle : Server := fun r =>
  if r.url == Json.str ("http://bad") then .error (.transport ("connection refused"))
  else
    match bodyMethod r with
    | some (Json.str m) =>
      if m == "initialize"
      then .ok (Json.obj [], [(("Mcp-Session-Id"), ("sess-1"))])
      else .ok (Json.obj [(("result"), Json.obj [(("tools"),
             Json.arr [Json.obj [(("name"), Json.str ("echo"))]])])], [])
    | _ => .error (.transport ("no route"))

/-- The config's `mcpServers` items for the C5 witness. -/
def c5Servers : List (String × Json) :=
  [(("bad"), Json.obj [(("url"), Json.str ("http://bad"))]),
   (("good"), Json.obj [(("url"), Json.str ("http://good"))])]

theorem c5_per_server_failure_isolation_witness :
    ((c5Servers.map Prod.fst).Nodup)
    ∧ ((∀ mcp_name server e, (mcp_name, server) ∈ c5Servers →
          refreshStep c5Oracle false demoYamlDump pyRepr ("tools") mcp_name server
            = .error e →
          ("Error fetching tools for " ++ mcp_name ++ ": " ++ e.message)
            ∈ (refreshLoop c5Oracle false demoYamlDump pyRepr ("tools") c5Servers []).2)
       ∧ (∀ mcp_name server path content line, (mcp_name, server) ∈ c5Servers →
          refreshStep c5Oracle false demoYamlDump pyRepr ("tools") mcp_name server
            = .ok (path, content, line) →
          FS.read (refreshLoop c5Oracle false demoYamlDump pyRepr ("tools") c5Servers []).1 path
            = some content
          ∧ line ∈ (refreshLoop c5Oracle false demoYamlDump pyRepr ("tools") c5Servers []).2)) :=
  ⟨by decide,
   c5_per_server_failure_isolation c5Oracle false demoYamlDump pyRepr ("tools")
     c5Servers [] (by decide)⟩

/-- The input schema for the C10 witness: `required` also lists a name
(`zz`) that does not appear under `properties`. -/
def c10Schema : Json :=
  Json.obj
    [(("properties"), Json.obj
       [(("a"), Json.obj [(("type"), Json.str ("string"))]),
        (("b"), Json.obj [(("type"), Json.str ("integer"))])]),
     (("required"), Json.arr [Json.str ("a"), Json.str ("zz")])]

theorem c10_param_names_match_properties_witness :
    pyDictGet c10Schema ("properties") (Json.obj [])
      = .ok (Json.obj [(("a"), Json.obj [(("type"), Json.str ("string"))]),
                       (("b"), Json.obj [(("type"), Json.str ("integer"))])])
    ∧ convert_schema_to_yaml_params c10Schema
      = .ok [(("a"), [(("type"), Json.str ("string")),
                      (("required"), Json.bool true)]),
             (("b"), [(("type"), Json.str ("integer"))])]
    ∧ (([(("a"), [(("type"), Json.str ("string")), (("required"), Json.bool true)]),
         (("b"), [(("type"), Json.str ("integer"))])].map Prod.fst
          = [(("a"), Json.obj [(("type"), Json.str ("string"))]),
             (("b"), Json.obj [(("type"), Json.str ("integer"))])].map Prod.fst)
       ∧ (∀ r : String,
            r ∉ [(("a"), Json.obj [(("type"), Json.str ("string"))]),
                 (("b"), Json.obj [(("type"), Json.str ("integer"))])].map Prod.fst →
            r ∉ [(("a"), [(("type"), Json.str ("string")),
                          (("required"), Json.bool true)]),
                 (("b"), [(("type"), Json.str ("integer"))])].map Prod.fst)
       ∧ (∀ nm pr,
            (nm, pr) ∈ [(("a"), [(("type"), Json.str ("string")),
                                 (("required"), Json.bool true)]),
                        (("b"), [(("type"), Json.str ("integer"))])] →
            nm ∈ [(("a"), Json.obj [(("type"), Json.str ("string"))]),
                  (("b"), Json.obj [(("type"), Json.str ("integer"))])].map Prod.fst)) :=
  ⟨rfl, rfl,
   c10_param_names_match_properties c10Schema
     [(("a"), Json.obj [(("type"), Json.str ("string"))]),
      (("b"), Json.obj [(("type"), Json.str ("integer"))])]
     [(("a"), [(("type"), Json.str ("string")), (("required"), Json.bool true)]),
      (("b"), [(("type"), Json.str ("integer"))])]
     rfl rfl⟩
